import Mathlib

/-!
Shallow embedding of the frame-lifecycle and resource-binding core of the ICE
rendering engine (Rust, `src/vrt/...`), together with theorems settling the
spec's claims about it.

Conventions of the embedding:
* Rust `u64`/`u32` machine integers are modelled as `Nat` with explicit
  wrap-around (`% 2 ^ 64`, `% 2 ^ 32`) at every operation where overflow can
  occur, matching release-build (wrapping) semantics.
* Vulkan handles (semaphores, fences, descriptor sets, host pointers) are
  modelled as `Nat` values handed out by explicit counters.
* Fallible Rust operations are modelled with `Option`/`Except`; a Rust
  `unwrap()`/`todo!()` panic is an explicit `panic`-shaped outcome, and a loop
  that can spin forever is an explicit `hang`-shaped outcome.
* External replies (the platform's acquire result, the window's reported
  extents, the present result) are inputs to the modelled functions.
-/

namespace ICE

/-- The modulus of Rust `u64` arithmetic. -/
def U64MOD : Nat := 2 ^ 64

/-- The modulus of Rust `u32` arithmetic. -/
def U32MOD : Nat := 2 ^ 32

/-- Wrapping `u64` addition. -/
def u64add (a b : Nat) : Nat := (a + b) % U64MOD

/-- Wrapping `u64` subtraction. -/
def u64sub (a b : Nat) : Nat := (a + U64MOD - b % U64MOD) % U64MOD

/-- Rust `!x` on `u64`: bitwise complement within 64 bits. -/
def u64not (x : Nat) : Nat := (U64MOD - 1) ^^^ (x % U64MOD)

/-- Wrapping `u64` multiplication. -/
def u64mul (a b : Nat) : Nat := a * b % U64MOD

/-- Wrapping `u32` addition. -/
def u32add (a b : Nat) : Nat := (a + b) % U32MOD

/-- Vulkan's `VK_WHOLE_SIZE` sentinel (`u64::MAX`), `erupt`'s `WHOLE_SIZE`. -/
def WHOLE_SIZE : Nat := U64MOD - 1

namespace VRTBuffer

/-- `VRTBuffer::get_alignment` from `src/vrt/buffer.rs` (identical in
`src/vrt/device/buffer.rs`): if `min_offset_alignment > 0` it returns
`(instance_size + min_offset_alignment - 1) & !(min_offset_alignment - 1)`
in `u64` arithmetic, else `instance_size`. -/
def get_alignment (instance_size min_offset_alignment : Nat) : Nat :=
  if min_offset_alignment > 0 then
    u64sub (u64add instance_size min_offset_alignment) 1 &&& u64not (min_offset_alignment - 1)
  else instance_size

end VRTBuffer

/-- Masking a 64-bit value with the complement of a low-bit mask `2 ^ k - 1`
clears the low `k` bits, i.e. rounds down to a multiple of `2 ^ k`. -/
lemma land_u64not_mask (n k : Nat) (hn : n < U64MOD) (hk : k ≤ 64) :
    n &&& u64not (2 ^ k - 1) = n / 2 ^ k * 2 ^ k := by
  have hmask : (2 ^ k - 1) % 2 ^ 64 = 2 ^ k - 1 := by
    apply Nat.mod_eq_of_lt
    have : 2 ^ k ≤ 2 ^ 64 := Nat.pow_le_pow_right (by norm_num) hk
    omega
  have hdiv : n / 2 ^ k * 2 ^ k = (n >>> k) <<< k := by
    rw [Nat.shiftRight_eq_div_pow, Nat.shiftLeft_eq]
  rw [hdiv]
  apply Nat.eq_of_testBit_eq
  intro i
  rw [Nat.testBit_and]
  unfold u64not U64MOD
  rw [hmask]
  rw [Nat.testBit_xor, Nat.testBit_two_pow_sub_one, Nat.testBit_two_pow_sub_one,
    Nat.testBit_shiftLeft, Nat.testBit_shiftRight]
  rcases Nat.lt_or_ge i k with hik | hik
  · have h64 : i < 64 := by omega
    simp [hik, h64, Nat.not_le.mpr hik]
  · rcases Nat.lt_or_ge i 64 with h64 | h64
    · have : k + (i - k) = i := by omega
      simp [Nat.not_lt.mpr hik, h64, hik, this]
    · have hbit : n.testBit i = false := by
        apply Nat.testBit_lt_two_pow
        calc n < 2 ^ 64 := hn
        _ ≤ 2 ^ i := Nat.pow_le_pow_right (by norm_num) h64
      have : k + (i - k) = i := by omega
      simp [hbit, Nat.not_lt.mpr hik, Nat.not_lt.mpr h64, hik, this]

/-- When `s + a ≤ 2 ^ 64` and `0 < a`, the wrapping computation
`(s + a) - 1` in `u64` equals the exact `s + a - 1`. -/
lemma u64sub_one_u64add (s a : Nat) (h : s + a ≤ U64MOD) (ha : 0 < a) :
    u64sub (u64add s a) 1 = s + a - 1 := by
  unfold u64add u64sub U64MOD at *
  rcases Nat.lt_or_ge (s + a) (2 ^ 64) with hlt | hge
  · rw [Nat.mod_eq_of_lt hlt]
    have h1 : (1 : Nat) % 2 ^ 64 = 1 := by norm_num
    rw [h1]
    have : s + a + 2 ^ 64 - 1 = (s + a - 1) + 2 ^ 64 := by omega
    rw [this, Nat.add_mod_right]
    exact Nat.mod_eq_of_lt (by omega)
  · have heq : s + a = 2 ^ 64 := by omega
    rw [heq, Nat.mod_self]
    have h1 : (1 : Nat) % 2 ^ 64 = 1 := by norm_num
    rw [h1]
    have : 0 + 2 ^ 64 - 1 = 2 ^ 64 - 1 := by omega
    rw [this, Nat.mod_eq_of_lt (by omega)]

/-- For a power-of-two alignment without `u64` overflow, the bit trick in
`get_alignment` computes exactly the rounding `(s + a - 1) / a * a`. -/
lemma get_alignment_pow2_eq (s k : Nat) (hk : k ≤ 64) (hs : s + 2 ^ k ≤ U64MOD) :
    VRTBuffer.get_alignment s (2 ^ k) = (s + 2 ^ k - 1) / 2 ^ k * 2 ^ k := by
  have hpos : 0 < 2 ^ k := Nat.pos_pow_of_pos k (by norm_num)
  unfold VRTBuffer.get_alignment
  rw [if_pos hpos]
  rw [u64sub_one_u64add s (2 ^ k) hs hpos]
  exact land_u64not_mask (s + 2 ^ k - 1) k (by unfold U64MOD at *; omega) hk

/-- Rounding `s` up to a multiple of `a` via `(s + a - 1) / a * a` never
produces a value below `s`. -/
lemma round_up_ge (s a : Nat) (ha : 0 < a) : s ≤ (s + a - 1) / a * a := by
  have h1 : (s + a - 1) / a * a + (s + a - 1) % a = s + a - 1 := by
    rw [Nat.mul_comm]
    exact Nat.div_add_mod (s + a - 1) a
  have h2 : (s + a - 1) % a < a := Nat.mod_lt _ ha
  omega

/-- Claim C1 (amended): for every power-of-two alignment `a = 2 ^ k`
(`k ≤ 64`) and every `instance_size s` such that `s + a` does not overflow
`u64`, `get_alignment s a` is a multiple of `a`, is at least `s`, and equals
the ceiling-division rounding `(s + a - 1) / a * a = ceil(s / a) * a`;
moreover `get_alignment s 1 = s` for every `u64`-representable `s`.  (For
non-power-of-two alignments the bit trick does not satisfy the contract; see
the counterexample.) -/
theorem get_alignment_pow2_spec (s k : Nat) (hk : k ≤ 64) (hs : s + 2 ^ k ≤ U64MOD) :
    VRTBuffer.get_alignment s (2 ^ k) % 2 ^ k = 0 ∧
    s ≤ VRTBuffer.get_alignment s (2 ^ k) ∧
    VRTBuffer.get_alignment s (2 ^ k) = (s + 2 ^ k - 1) / 2 ^ k * 2 ^ k ∧
    VRTBuffer.get_alignment s 1 = s := by
  have hpos : 0 < 2 ^ k := Nat.pos_pow_of_pos k (by norm_num)
  have heq := get_alignment_pow2_eq s k hk hs
  refine ⟨?_, ?_, heq, ?_⟩
  · rw [heq]
    exact Nat.mul_mod_left _ _
  · rw [heq]
    exact round_up_ge s (2 ^ k) hpos
  · have h1 : s + 2 ^ 0 ≤ U64MOD := by
      have : (2 : Nat) ^ 0 ≤ 2 ^ k := Nat.pow_le_pow_right (by norm_num) (Nat.zero_le k)
      omega
    have := get_alignment_pow2_eq s 0 (by omega) h1
    simpa using this

/-- Witness for C1's theorem at `s = 10`, `a = 2 ^ 4 = 16`: the alignment is
`16`, a multiple of `16`, at least `10`, and equal to `ceil(10/16) * 16`. -/
theorem get_alignment_pow2_spec_witness :
    VRTBuffer.get_alignment 10 (2 ^ 4) % 2 ^ 4 = 0 ∧
    10 ≤ VRTBuffer.get_alignment 10 (2 ^ 4) ∧
    VRTBuffer.get_alignment 10 (2 ^ 4) = (10 + 2 ^ 4 - 1) / 2 ^ 4 * 2 ^ 4 ∧
    VRTBuffer.get_alignment 10 1 = 10 :=
  get_alignment_pow2_spec 10 4 (by norm_num) (by norm_num [U64MOD])

/-- Counterexample to claim C1 as stated: at `instance_size = 1`,
`min_alignment = 3` (a non-power-of-two alignment ≥ 1) the code returns
`(1 + 3 - 1) & !(3 - 1) = 3 & !2 = 1`, which is not a multiple of `3` and is
not the ceiling rounding `ceil(1/3) * 3 = 3`. -/
theorem get_alignment_bitmask_cex :
    VRTBuffer.get_alignment 1 3 = 1 ∧
    VRTBuffer.get_alignment 1 3 % 3 ≠ 0 ∧
    VRTBuffer.get_alignment 1 3 ≠ (1 + 3 - 1) / 3 * 3 := by
  refine ⟨by decide, by decide, by decide⟩

/-! Host-visible buffer wrapper (`VRTBuffer`, `src/vrt/buffer.rs`). -/

/-- The fields of `VRTBuffer` that the modelled operations read or write.
Handles (`buffer`, `memory`, `device`) and the flag fields are opaque `Nat`
values; `mapped_memory : Option<*mut c_void>` is `Option Nat`. -/
structure VRTBufferState where
  buffer_size : Nat
  instance_count : Nat
  instance_size : Nat
  alignment_size : Nat
  usage_flags : Nat
  memory_property_flags : Nat
  mapped_memory : Option Nat
deriving DecidableEq

namespace VRTBuffer

/-- `VRTBuffer::new`: `alignment_size = get_alignment(instance_size,
min_offset_alignment.unwrap_or(1))`, `buffer_size = alignment_size *
instance_count` (`u64` product), and the buffer starts unmapped
(`mapped_memory: None`). -/
def new (instance_size : Nat) (instance_count : Nat) (usage_flags : Nat)
    (memory_property_flags : Nat) (min_offset_alignment : Option Nat) : VRTBufferState :=
  let alignment_size := get_alignment instance_size (min_offset_alignment.getD 1)
  let buffer_size := u64mul alignment_size instance_count
  { buffer_size := buffer_size
    instance_count := instance_count
    instance_size := instance_size
    alignment_size := alignment_size
    usage_flags := usage_flags
    memory_property_flags := memory_property_flags
    mapped_memory := none }

/-- `VRTBuffer::map`: stores the pointer returned by `map_memory` (supplied
here by the environment as `host_ptr`) into `mapped_memory`. -/
def map (b : VRTBufferState) (host_ptr : Nat) : VRTBufferState :=
  { b with mapped_memory := some host_ptr }

/-- `VRTBuffer::unmap` does not clear `mapped_memory` in the source; it only
calls `unmap_memory` on the device, so the modelled state is unchanged. -/
def unmap (b : VRTBufferState) : VRTBufferState := b

end VRTBuffer

/-- The memory copy performed by `copy_nonoverlapping` inside
`write_to_buffer`: destination address and number of bytes copied. -/
structure CopyOp where
  dst : Nat
  byte_count : Nat
deriving DecidableEq

namespace VRTBuffer

/-- `VRTBuffer::write_to_buffer` from `src/vrt/buffer.rs` (identical in
`src/vrt/device/buffer.rs`): takes the mapped pointer as an explicit argument
and unconditionally performs a copy — `buffer_size` bytes to `mapped` when
`size == WHOLE_SIZE`, else `size` bytes to `mapped + offset` (`u64` sum).
It never consults `mapped_memory` and has no failure path. -/
def write_to_buffer (b : VRTBufferState) (mapped : Nat) (size offset : Nat) : CopyOp :=
  if size = WHOLE_SIZE then { dst := mapped, byte_count := b.buffer_size }
  else { dst := u64add mapped offset, byte_count := size }

end VRTBuffer

/-- Claim C7 (amended): `write_to_buffer` performs the copy unconditionally
against the caller-supplied mapped pointer; it does not read the buffer's
mapped state (the result is identical for any value of `mapped_memory`), and
no `NotMapped` error exists — the operation cannot fail. -/
theorem write_to_buffer_unconditional (b : VRTBufferState) (p : Option Nat)
    (m size offset : Nat) :
    VRTBuffer.write_to_buffer b m size offset =
      VRTBuffer.write_to_buffer { b with mapped_memory := p } m size offset ∧
    VRTBuffer.write_to_buffer b m size offset =
      (if size = WHOLE_SIZE then { dst := m, byte_count := b.buffer_size }
       else { dst := u64add m offset, byte_count := size }) := by
  unfold VRTBuffer.write_to_buffer
  exact ⟨rfl, rfl⟩

/-- Counterexample to claim C7 as stated: a freshly constructed buffer has
`mapped_memory = none` (`map()` never called), yet `write_to_buffer` performs
the 64-byte copy at the supplied pointer instead of failing — its result type
(faithful to the Rust `()` return plus `copy_nonoverlapping` effect) has no
error case, and the crate's error enum has no `NotMapped` variant. -/
theorem write_to_buffer_unmapped_cex :
    (VRTBuffer.new 64 1 0 0 none).mapped_memory = none ∧
    VRTBuffer.write_to_buffer (VRTBuffer.new 64 1 0 0 none) 4096 64 0 =
      { dst := 4096, byte_count := 64 } := by
  exact ⟨rfl, by decide⟩

/-- Claim C10: with `size = WHOLE_SIZE` the copy targets the mapped base
pointer itself, copies exactly `buffer_size = get_alignment(instance_size,
min_alignment) * instance_count` bytes, and the `offset` argument is ignored;
the offset is applied only when `size ≠ WHOLE_SIZE`. -/
theorem write_whole_size_spec (s cnt usage props : Nat) (al : Option Nat)
    (m offset offset₂ : Nat) :
    VRTBuffer.write_to_buffer (VRTBuffer.new s cnt usage props al) m WHOLE_SIZE offset =
      { dst := m, byte_count := (VRTBuffer.new s cnt usage props al).buffer_size } ∧
    (VRTBuffer.new s cnt usage props al).buffer_size =
      u64mul (VRTBuffer.get_alignment s (al.getD 1)) cnt ∧
    VRTBuffer.write_to_buffer (VRTBuffer.new s cnt usage props al) m WHOLE_SIZE offset =
      VRTBuffer.write_to_buffer (VRTBuffer.new s cnt usage props al) m WHOLE_SIZE offset₂ ∧
    (∀ size, size ≠ WHOLE_SIZE →
      VRTBuffer.write_to_buffer (VRTBuffer.new s cnt usage props al) m size offset =
        { dst := u64add m offset, byte_count := size }) := by
  refine ⟨?_, rfl, ?_, ?_⟩
  · unfold VRTBuffer.write_to_buffer
    rw [if_pos rfl]
  · unfold VRTBuffer.write_to_buffer
    rw [if_pos rfl, if_pos rfl]
  · intro size hsize
    unfold VRTBuffer.write_to_buffer
    rw [if_neg hsize]

/-- Witness for C10's theorem at `instance_size = 4`, `instance_count = 2`,
`min_alignment = 8`: the whole-size write copies `buffer_size = 16` bytes to
the base pointer for any offset, and a sized write of 5 bytes lands at
`mapped + offset`. -/
theorem write_whole_size_spec_witness :
    VRTBuffer.write_to_buffer (VRTBuffer.new 4 2 0 0 (some 8)) 100 WHOLE_SIZE 7 =
      { dst := 100, byte_count := (VRTBuffer.new 4 2 0 0 (some 8)).buffer_size } ∧
    VRTBuffer.write_to_buffer (VRTBuffer.new 4 2 0 0 (some 8)) 100 5 7 =
      { dst := u64add 100 7, byte_count := 5 } :=
  ⟨(write_whole_size_spec 4 2 0 0 (some 8) 100 7 9).1,
   (write_whole_size_spec 4 2 0 0 (some 8) 100 7 9).2.2.2 5 (by decide)⟩

/-! Window extents and swapchain rebuild (`VRTRenderer::recreate_swapchain`,
`src/vrt/renderer.rs`). -/

/-- `erupt`'s `Extent2D`: a pair of `u32` dimensions. -/
structure Extent2D where
  width : Nat
  height : Nat
deriving DecidableEq

/-- `MAX_FRAMES_IN_FLIGHT` from `src/vrt/device/swapchain.rs`. -/
def MAX_FRAMES_IN_FLIGHT : Nat := 2

/-- The polling loop of `recreate_swapchain`: `extent = window.get_extent();
while extent.width == 0 || extent.height == 0 { extent = window.get_extent() }`.
Successive `get_extent()` calls consume successive elements of the sequence of
extents reported by the window layer; `none` means the supply was exhausted
while still degenerate (the real loop would keep spinning). -/
def pollExtent : List Extent2D → Option Extent2D
  | [] => none
  | e :: rest => if e.width = 0 ∨ e.height = 0 then pollExtent rest else some e

/-- `VRTRenderer::recreate_swapchain`: polls the window extent until it is
non-degenerate, then constructs exactly one new `Swapchain` at that extent.
The returned list is the sequence of `Swapchain::new` constructions performed
(`none` when the poll loop never terminates). -/
def recreate_swapchain (extents : List Extent2D) : Option (List Extent2D) :=
  (pollExtent extents).map (fun e => [e])

/-- The polled extent is exactly the first reported extent whose two
dimensions are both positive. -/
lemma pollExtent_eq_find (extents : List Extent2D) :
    pollExtent extents =
      extents.find? (fun e => decide (0 < e.width) && decide (0 < e.height)) := by
  induction extents with
  | nil => rfl
  | cons e rest ih =>
    rw [pollExtent, List.find?_cons]
    by_cases h : e.width = 0 ∨ e.height = 0
    · have hfind : (decide (0 < e.width) && decide (0 < e.height)) = false := by
        rcases h with h | h <;> simp [h]
      simp only [hfind, if_pos h, ih]
    · have hfind : (decide (0 < e.width) && decide (0 < e.height)) = true := by
        push_neg at h
        simp [Nat.pos_of_ne_zero h.1, Nat.pos_of_ne_zero h.2]
      simp only [hfind, if_neg h]

/-- Claim C4: for every sequence of reported extents whose first
non-degenerate element is `e` (both dimensions positive), `recreate_swapchain`
skips every degenerate extent without constructing and performs exactly one
swapchain construction, at `e`. -/
theorem recreate_swapchain_single_construction (extents : List Extent2D) (e : Extent2D)
    (h : extents.find? (fun x => decide (0 < x.width) && decide (0 < x.height)) = some e) :
    recreate_swapchain extents = some [e] := by
  unfold recreate_swapchain
  rw [pollExtent_eq_find, h]
  rfl

/-- Witness for C4's theorem on the spec's example sequence
`[(0,0), (0,5), (800,600)]`: exactly one construction, at `(800,600)`. -/
theorem recreate_swapchain_single_construction_witness :
    recreate_swapchain [⟨0, 0⟩, ⟨0, 5⟩, ⟨800, 600⟩] = some [⟨800, 600⟩] :=
  recreate_swapchain_single_construction [⟨0, 0⟩, ⟨0, 5⟩, ⟨800, 600⟩] ⟨800, 600⟩ (by decide)

/-! Frame scheduler (`VRTRenderer`, `src/vrt/renderer.rs` — the variant the
application in `src/vrt/app.rs` instantiates). -/

/-- The error enum used by `VRTRenderer` (`crate::vrt::result::VkError`; the
variants are those constructed or propagated in `src/vrt/renderer.rs`:
`FrameAlreadyStarted`, `SwapChainExpired`, and wrapped raw Vulkan codes). -/
inductive VkErr
  | FrameAlreadyStarted
  | SwapChainExpired
  | Vk (code : Nat)
deriving DecidableEq

/-- The mutable fields of `VRTRenderer` that `begin_frame`/`end_frame` touch.
`swapchain_gen` counts how many times the `swapchain` field has been replaced
by `recreate_swapchain` (the handle of the currently installed swapchain). -/
structure RendererState where
  current_frame_index : Nat
  is_frame_started : Bool
  image_index : Nat
  swapchain_gen : Nat
deriving DecidableEq

/-- `VRTRenderer::new` initial state: `current_frame_index: 0,
is_frame_started: false, image_index: 0`, first swapchain installed. -/
def RendererState.initial : RendererState :=
  { current_frame_index := 0, is_frame_started := false, image_index := 0, swapchain_gen := 0 }

/-- The platform's reply to `swapchain.acquire_next_image()`: a fresh image
index, `ERROR_OUT_OF_DATE_KHR`, or any other Vulkan error code. -/
inductive AcquireOutcome
  | success (image_index : Nat)
  | outOfDate
  | otherError (code : Nat)
deriving DecidableEq

/-- Environment of one `begin_frame` call: the acquire reply, the result of
`begin_command_buffer` (`none` = success, `some code` = error propagated via
`.result()?`), and the extents the window reports if a rebuild is needed. -/
structure BeginEnv where
  acquire : AcquireOutcome
  begin_cb_error : Option Nat
  extents : List Extent2D
deriving DecidableEq

/-- Result of a `begin_frame` call: `ok` returns the command-buffer slot
(`command_buffers[current_frame_index]`) with the updated state, `err` is a
returned `Err` with the state as left by the call, `panic` is an `unwrap()`
panic, `hang` is the non-terminating degenerate-extent poll loop. -/
inductive BeginResult
  | ok (s : RendererState) (cb_slot : Nat)
  | err (e : VkErr) (s : RendererState)
  | panic
  | hang
deriving DecidableEq

/-- `VRTRenderer::begin_frame`: rejects a second begin with
`FrameAlreadyStarted`; on `ERROR_OUT_OF_DATE_KHR` rebuilds the swapchain and
returns `Err(SwapChainExpired)`; on any other acquire error the `unwrap()`
panics; on success sets `is_frame_started`, records the image index, and
begins recording on `command_buffers[current_frame_index]` (an error from
`begin_command_buffer` is returned after the flags were already set). -/
def begin_frame (s : RendererState) (env : BeginEnv) : BeginResult :=
  if s.is_frame_started then .err .FrameAlreadyStarted s
  else
    match env.acquire with
    | .outOfDate =>
        match recreate_swapchain env.extents with
        | some _ => .err .SwapChainExpired { s with swapchain_gen := s.swapchain_gen + 1 }
        | none => .hang
    | .otherError _ => .panic
    | .success idx =>
        match env.begin_cb_error with
        | none => .ok { s with is_frame_started := true, image_index := idx } s.current_frame_index
        | some code => .err (.Vk code) { s with is_frame_started := true, image_index := idx }

/-- The `raw` field of the `VulkanResult` returned by presenting:
`SUCCESS`, `SUBOPTIMAL_KHR`, `ERROR_OUT_OF_DATE_KHR`, or another error. -/
inductive PresentOutcome
  | success
  | suboptimal
  | outOfDate
  | error (code : Nat)
deriving DecidableEq

/-- Environment of one `end_frame` call: whether `end_command_buffer`
succeeds, the submit/present reply (`none` = `submit_command_buffer` itself
returned `Err`, which `unwrap()` turns into a panic), the window's resize
flag, and the extents reported if a rebuild is triggered. -/
structure EndEnv where
  end_cb_ok : Bool
  submit : Option PresentOutcome
  resized : Bool
  extents : List Extent2D
deriving DecidableEq

/-- Result of an `end_frame` call: `completed` finished a started frame,
`ignored` is the not-started early return (logs and no-ops), `panic` is an
`unwrap()` panic, `hang` the degenerate-extent poll loop. -/
inductive EndResult
  | completed (s : RendererState)
  | ignored (s : RendererState)
  | panic
  | hang
deriving DecidableEq

/-- `VRTRenderer::end_frame`: no-ops when no frame is started; otherwise ends
recording, submits and presents; when the present reports
`ERROR_OUT_OF_DATE_KHR` or `SUBOPTIMAL_KHR` or the window's resize flag is
set, clears the flag and rebuilds the swapchain; any other present error
panics via `unwrap()`.  It then clears `is_frame_started` and advances
`current_frame_index = (current_frame_index + 1) % MAX_FRAMES_IN_FLIGHT`. -/
def end_frame (s : RendererState) (env : EndEnv) : EndResult :=
  if !s.is_frame_started then .ignored s
  else if !env.end_cb_ok then .panic
  else
    match env.submit with
    | none => .panic
    | some pr =>
        if pr = .outOfDate ∨ pr = .suboptimal ∨ env.resized then
          match recreate_swapchain env.extents with
          | some _ =>
              .completed { s with
                is_frame_started := false
                current_frame_index := (s.current_frame_index + 1) % MAX_FRAMES_IN_FLIGHT
                swapchain_gen := s.swapchain_gen + 1 }
          | none => .hang
        else
          match pr with
          | .error _ => .panic
          | _ =>
              .completed { s with
                is_frame_started := false
                current_frame_index := (s.current_frame_index + 1) % MAX_FRAMES_IN_FLIGHT }

/-- One driver call into the scheduler. -/
inductive Event
  | beginE (env : BeginEnv)
  | endE (env : EndEnv)
deriving DecidableEq

/-- Externally observable outcome of one call. -/
inductive Outcome
  | beganOk
  | beganErr (e : VkErr)
  | endCompleted
  | endIgnored
  | stopped
deriving DecidableEq

/-- One step of the scheduler: runs the call, yielding its outcome and the
next state (`none` when execution stopped in a panic or a spin loop). -/
def step (s : RendererState) : Event → Outcome × Option RendererState
  | .beginE env =>
      match begin_frame s env with
      | .ok s' _ => (.beganOk, some s')
      | .err e s' => (.beganErr e, some s')
      | .panic => (.stopped, none)
      | .hang => (.stopped, none)
  | .endE env =>
      match end_frame s env with
      | .completed s' => (.endCompleted, some s')
      | .ignored s' => (.endIgnored, some s')
      | .panic => (.stopped, none)
      | .hang => (.stopped, none)

/-- Runs a sequence of calls, collecting the outcomes and the final state
(`none` when execution stopped before the end of the sequence). -/
def run (s : RendererState) : List Event → List Outcome × Option RendererState
  | [] => ([], some s)
  | e :: rest =>
      match step s e with
      | (o, some s') => (o :: (run s' rest).1, (run s' rest).2)
      | (o, none) => ([o], none)

/-- `alternation pending outcomes` holds when no `beganOk` occurs while a
begin is already pending (i.e. without an intervening `endCompleted`). -/
def alternation (pending : Bool) : List Outcome → Prop
  | [] => True
  | .beganOk :: rest => pending = false ∧ alternation true rest
  | .endCompleted :: rest => alternation false rest
  | _ :: rest => alternation pending rest

/-- Number of completed `end_frame` calls in an outcome sequence. -/
def countCompleted : List Outcome → Nat
  | [] => 0
  | .endCompleted :: rest => countCompleted rest + 1
  | _ :: rest => countCompleted rest

/-- A `begin_frame` attempted while a frame is started returns
`FrameAlreadyStarted` and leaves the state untouched. -/
lemma begin_frame_of_started (s : RendererState) (env : BeginEnv)
    (h : s.is_frame_started = true) :
    begin_frame s env = .err .FrameAlreadyStarted s := by
  unfold begin_frame
  rw [h]
  rfl

/-- A successful `begin_frame` starts from an idle state, sets the
started flag, and keeps the frame index (the returned buffer is the slot's). -/
lemma begin_frame_ok_inv (s : RendererState) (env : BeginEnv) (s' : RendererState) (cb : Nat)
    (h : begin_frame s env = .ok s' cb) :
    s.is_frame_started = false ∧ s'.is_frame_started = true ∧
    s'.current_frame_index = s.current_frame_index ∧ cb = s.current_frame_index := by
  unfold begin_frame at h
  split at h
  · exact BeginResult.noConfusion h
  · rename_i hs
    split at h
    · split at h
      · exact BeginResult.noConfusion h
      · exact BeginResult.noConfusion h
    · exact BeginResult.noConfusion h
    · split at h
      · cases h
        exact ⟨Bool.not_eq_true _ ▸ Bool.of_not_eq_true hs, rfl, rfl, rfl⟩
      · exact BeginResult.noConfusion h

/-- A `begin_frame` that returns `Err` keeps the frame index; its resulting
started flag is either unchanged or (on a `begin_command_buffer` error, after
the flag was already set) `true`. -/
lemma begin_frame_err_inv (s : RendererState) (env : BeginEnv) (e : VkErr) (s' : RendererState)
    (h : begin_frame s env = .err e s') :
    s'.current_frame_index = s.current_frame_index ∧
    (s'.is_frame_started = s.is_frame_started ∨ s'.is_frame_started = true) := by
  unfold begin_frame at h
  split at h
  · cases h
    exact ⟨rfl, Or.inl rfl⟩
  · split at h
    · split at h
      · cases h
        exact ⟨rfl, Or.inl rfl⟩
      · exact BeginResult.noConfusion h
    · exact BeginResult.noConfusion h
    · split at h
      · exact BeginResult.noConfusion h
      · cases h
        exact ⟨rfl, Or.inr rfl⟩

/-- A completed `end_frame` starts from a started frame, clears the flag, and
advances the frame index by exactly one modulo `MAX_FRAMES_IN_FLIGHT`. -/
lemma end_frame_completed_inv (s : RendererState) (env : EndEnv) (s' : RendererState)
    (h : end_frame s env = .completed s') :
    s.is_frame_started = true ∧ s'.is_frame_started = false ∧
    s'.current_frame_index = (s.current_frame_index + 1) % MAX_FRAMES_IN_FLIGHT := by
  unfold end_frame at h
  split at h
  · exact EndResult.noConfusion h
  · rename_i hs
    split at h
    · exact EndResult.noConfusion h
    · split at h
      · exact EndResult.noConfusion h
      · split at h
        · split at h
          · cases h
            exact ⟨by simpa using hs, rfl, rfl⟩
          · exact EndResult.noConfusion h
        · split at h
          · exact EndResult.noConfusion h
          · cases h
            exact ⟨by simpa using hs, rfl, rfl⟩

/-- An ignored `end_frame` (no frame started) leaves the state untouched. -/
lemma end_frame_ignored_inv (s : RendererState) (env : EndEnv) (s' : RendererState)
    (h : end_frame s env = .ignored s') :
    s' = s ∧ s.is_frame_started = false := by
  unfold end_frame at h
  split at h
  · rename_i hs
    cases h
    exact ⟨rfl, by simpa using hs⟩
  · split at h
    · exact EndResult.noConfusion h
    · split at h
      · exact EndResult.noConfusion h
      · split at h
        · split at h
          · exact EndResult.noConfusion h
          · exact EndResult.noConfusion h
        · split at h
          · exact EndResult.noConfusion h
          · exact EndResult.noConfusion h

/-- `alternation` with a pending begin is the strongest case: it implies the
predicate for any initial pending flag. -/
lemma alternation_of_true : ∀ (l : List Outcome), alternation true l → ∀ b, alternation b l := by
  intro l
  induction l with
  | nil => intro _ b; trivial
  | cons o rest ih =>
    intro h b
    cases o with
    | beganOk => exact absurd h.1 (by simp)
    | endCompleted => exact h
    | beganErr e => exact ih h b
    | endIgnored => exact ih h b
    | stopped => exact ih h b

/-- Along every run of the scheduler, `beganOk` never occurs while a begin is
already pending. -/
lemma run_alternation (events : List Event) :
    ∀ s : RendererState, alternation s.is_frame_started (run s events).1 := by
  induction events with
  | nil => intro s; trivial
  | cons e rest ih =>
    intro s
    cases e with
    | beginE env =>
      cases hb : begin_frame s env with
      | ok s' cb =>
        have hf := begin_frame_ok_inv s env s' cb hb
        simp only [run, step, hb]
        rw [hf.1]
        refine ⟨rfl, ?_⟩
        have h2 := ih s'
        rwa [hf.2.1] at h2
      | err e' s' =>
        have hf := begin_frame_err_inv s env e' s' hb
        simp only [run, step, hb]
        show alternation s.is_frame_started ((run s' rest).1)
        rcases hf.2 with hsame | htrue
        · have h2 := ih s'
          rwa [hsame] at h2
        · have h2 := ih s'
          rw [htrue] at h2
          exact alternation_of_true _ h2 _
      | panic =>
        simp only [run, step, hb]
        show alternation s.is_frame_started []
        trivial
      | hang =>
        simp only [run, step, hb]
        show alternation s.is_frame_started []
        trivial
    | endE env =>
      cases he : end_frame s env with
      | completed s' =>
        have hf := end_frame_completed_inv s env s' he
        simp only [run, step, he]
        show alternation false ((run s' rest).1)
        have h2 := ih s'
        rwa [hf.2.1] at h2
      | ignored s' =>
        have hf := end_frame_ignored_inv s env s' he
        simp only [run, step, he]
        show alternation s.is_frame_started ((run s' rest).1)
        rw [hf.1]
        exact ih s
      | panic =>
        simp only [run, step, he]
        show alternation s.is_frame_started []
        trivial
      | hang =>
        simp only [run, step, he]
        show alternation s.is_frame_started []
        trivial

/-- Claim C2: along every sequence of `begin_frame`/`end_frame` calls,
`begin_frame` never succeeds while a begin is pending (never twice without an
intervening completed `end_frame`); a `begin_frame` on a started frame
returns `FrameAlreadyStarted` with the state untouched (no recording is
begun); a successful `begin_frame` moves idle → started; and a completed
`end_frame` moves started → idle, so a subsequent `begin_frame` may
succeed. -/
theorem frame_alternation :
    (∀ (s : RendererState) (events : List Event),
      alternation s.is_frame_started (run s events).1) ∧
    (∀ (s : RendererState) (env : BeginEnv), s.is_frame_started = true →
      begin_frame s env = .err .FrameAlreadyStarted s) ∧
    (∀ (s : RendererState) (env : BeginEnv) (s' : RendererState) (cb : Nat),
      begin_frame s env = .ok s' cb →
      s.is_frame_started = false ∧ s'.is_frame_started = true) ∧
    (∀ (s : RendererState) (env : EndEnv) (s' : RendererState),
      end_frame s env = .completed s' →
      s.is_frame_started = true ∧ s'.is_frame_started = false) := by
  refine ⟨fun s events => run_alternation events s, begin_frame_of_started, ?_, ?_⟩
  · intro s env s' cb h
    have hf := begin_frame_ok_inv s env s' cb h
    exact ⟨hf.1, hf.2.1⟩
  · intro s env s' h
    have hf := end_frame_completed_inv s env s' h
    exact ⟨hf.1, hf.2.1⟩

/-- Witness for C2's theorem: on a concrete started state, a second
`begin_frame` reports `FrameAlreadyStarted` and leaves the state unchanged,
and on the concrete two-begin trace {begin, begin} from idle the second call
errs while only the first succeeds. -/
theorem frame_alternation_witness :
    begin_frame
        { current_frame_index := 0, is_frame_started := true, image_index := 0,
          swapchain_gen := 0 }
        { acquire := .success 0, begin_cb_error := none, extents := [] } =
      .err .FrameAlreadyStarted
        { current_frame_index := 0, is_frame_started := true, image_index := 0,
          swapchain_gen := 0 } ∧
    (run RendererState.initial
        [.beginE { acquire := .success 0, begin_cb_error := none, extents := [] },
         .beginE { acquire := .success 0, begin_cb_error := none, extents := [] }]).1 =
      [.beganOk, .beganErr .FrameAlreadyStarted] :=
  ⟨frame_alternation.2.1 _ _ rfl, by decide⟩

/-- Along every run from a state whose frame index is in range, the final
frame index equals the initial one advanced once per completed `end_frame`,
modulo `MAX_FRAMES_IN_FLIGHT`. -/
lemma run_index (events : List Event) :
    ∀ (s s' : RendererState), s.current_frame_index < MAX_FRAMES_IN_FLIGHT →
    (run s events).2 = some s' →
    s'.current_frame_index =
      (s.current_frame_index + countCompleted (run s events).1) % MAX_FRAMES_IN_FLIGHT := by
  induction events with
  | nil =>
    intro s s' hlt h
    have hss : s = s' := by
      simpa [run] using h
    subst hss
    show s.current_frame_index = (s.current_frame_index + 0) % MAX_FRAMES_IN_FLIGHT
    rw [Nat.add_zero, Nat.mod_eq_of_lt hlt]
  | cons e rest ih =>
    intro s s' hlt h
    cases e with
    | beginE env =>
      cases hb : begin_frame s env with
      | ok s'' cb =>
        have hf := begin_frame_ok_inv s env s'' cb hb
        simp only [run, step, hb] at h ⊢
        show s'.current_frame_index =
          (s.current_frame_index + countCompleted (.beganOk :: (run s'' rest).1)) %
            MAX_FRAMES_IN_FLIGHT
        have h2 := ih s'' s' (hf.2.2.1 ▸ hlt) h
        rw [hf.2.2.1] at h2
        exact h2
      | err e' s'' =>
        have hf := begin_frame_err_inv s env e' s'' hb
        simp only [run, step, hb] at h ⊢
        show s'.current_frame_index =
          (s.current_frame_index + countCompleted (.beganErr e' :: (run s'' rest).1)) %
            MAX_FRAMES_IN_FLIGHT
        have h2 := ih s'' s' (hf.1 ▸ hlt) h
        rw [hf.1] at h2
        exact h2
      | panic =>
        simp only [run, step, hb] at h
        exact Option.noConfusion h
      | hang =>
        simp only [run, step, hb] at h
        exact Option.noConfusion h
    | endE env =>
      cases he : end_frame s env with
      | completed s'' =>
        have hf := end_frame_completed_inv s env s'' he
        simp only [run, step, he] at h ⊢
        show s'.current_frame_index =
          (s.current_frame_index + countCompleted (.endCompleted :: (run s'' rest).1)) %
            MAX_FRAMES_IN_FLIGHT
        have hlt2 : s''.current_frame_index < MAX_FRAMES_IN_FLIGHT := by
          rw [hf.2.2]
          exact Nat.mod_lt _ (by decide)
        have h2 := ih s'' s' hlt2 h
        rw [hf.2.2] at h2
        show s'.current_frame_index =
          (s.current_frame_index + (countCompleted ((run s'' rest).1) + 1)) %
            MAX_FRAMES_IN_FLIGHT
        unfold MAX_FRAMES_IN_FLIGHT at h2 ⊢
        omega
      | ignored s'' =>
        have hf := end_frame_ignored_inv s env s'' he
        simp only [run, step, he] at h ⊢
        rw [hf.1] at h
        show s'.current_frame_index =
          (s.current_frame_index + countCompleted (.endIgnored :: (run s'' rest).1)) %
            MAX_FRAMES_IN_FLIGHT
        rw [hf.1]
        exact ih s s' hlt h
      | panic =>
        simp only [run, step, he] at h
        exact Option.noConfusion h
      | hang =>
        simp only [run, step, he] at h
        exact Option.noConfusion h

/-- Claim C3: `MAX_FRAMES_IN_FLIGHT = 2`; along every run the frame index
advances exactly once per completed `end_frame`, modulo 2 (so from index 0 it
is 0 again after 2 completed ends and 1 after 3); a completed `end_frame`
advances it by exactly `(i + 1) % 2`; an ignored `end_frame`, a successful
`begin_frame`, and a failed `begin_frame` (including the swapchain-rebuild
path) leave it unchanged. -/
theorem frame_index_advance :
    MAX_FRAMES_IN_FLIGHT = 2 ∧
    (∀ (s s' : RendererState) (events : List Event),
      s.current_frame_index < MAX_FRAMES_IN_FLIGHT → (run s events).2 = some s' →
      s'.current_frame_index =
        (s.current_frame_index + countCompleted (run s events).1) % MAX_FRAMES_IN_FLIGHT) ∧
    (∀ (s : RendererState) (env : EndEnv) (s' : RendererState),
      end_frame s env = .completed s' →
      s'.current_frame_index = (s.current_frame_index + 1) % MAX_FRAMES_IN_FLIGHT) ∧
    (∀ (s : RendererState) (env : EndEnv) (s' : RendererState),
      end_frame s env = .ignored s' → s' = s) ∧
    (∀ (s : RendererState) (env : BeginEnv) (s' : RendererState) (cb : Nat),
      begin_frame s env = .ok s' cb → s'.current_frame_index = s.current_frame_index) ∧
    (∀ (s : RendererState) (env : BeginEnv) (e : VkErr) (s' : RendererState),
      begin_frame s env = .err e s' → s'.current_frame_index = s.current_frame_index) := by
  refine ⟨rfl, fun s s' events => run_index events s s', ?_, ?_, ?_, ?_⟩
  · intro s env s' h
    exact (end_frame_completed_inv s env s' h).2.2
  · intro s env s' h
    exact (end_frame_ignored_inv s env s' h).1
  · intro s env s' cb h
    exact (begin_frame_ok_inv s env s' cb h).2.2.1
  · intro s env e s' h
    exact (begin_frame_err_inv s env e s' h).1

/-- A begin/end round that acquires image 0 and presents successfully. -/
def okRound : List Event :=
  [.beginE { acquire := .success 0, begin_cb_error := none, extents := [] },
   .endE { end_cb_ok := true, submit := some .success, resized := false, extents := [] }]

/-- Witness for C3's theorem: starting at index 0, after exactly 2 completed
`end_frame` calls the index is 0 again, and after 3 it is 1; the main run
formula is instantiated on the concrete 2-round trace. -/
theorem frame_index_advance_witness :
    (run RendererState.initial (okRound ++ okRound)).2 = some RendererState.initial ∧
    RendererState.initial.current_frame_index =
      (RendererState.initial.current_frame_index +
        countCompleted (run RendererState.initial (okRound ++ okRound)).1) %
        MAX_FRAMES_IN_FLIGHT ∧
    countCompleted (run RendererState.initial (okRound ++ okRound)).1 = 2 ∧
    ((run RendererState.initial (okRound ++ okRound ++ okRound)).2.map
      (fun st => st.current_frame_index)) = some 1 ∧
    countCompleted (run RendererState.initial (okRound ++ okRound ++ okRound)).1 = 3 :=
  ⟨by decide,
   frame_index_advance.2.1 RendererState.initial RendererState.initial (okRound ++ okRound)
     (by decide) (by decide),
   by decide, by decide, by decide⟩

/-! Descriptor layout, pool and writer (`src/vrt/layout.rs`,
`src/vrt/descriptor_pool.rs`). -/

/-- The descriptor types used by the engine (a fragment of Vulkan's
`DescriptorType`). -/
inductive DescriptorType
  | uniformBuffer
  | uniformBufferDynamic
  | combinedImageSampler
  | storageBuffer
deriving DecidableEq

/-- One `DescriptorSetLayoutBindingBuilder` entry as filled in by
`VRTDescriptorSetLayoutBuilder::add_binding`. -/
structure LayoutBinding where
  binding : Nat
  descriptor_type : DescriptorType
  descriptor_count : Nat
  stage_flags : Nat
deriving DecidableEq

/-- `VRTDescriptorSetLayout` (`src/vrt/layout.rs`): the ordered binding list
(the Vulkan layout handle itself is opaque and not modelled). -/
structure VRTDescriptorSetLayout where
  bindings : List LayoutBinding
deriving DecidableEq

/-- `VRTDescriptorSetLayoutBuilder::add_binding`: pushes a binding with
`descriptor_count = count.unwrap_or(1)`. -/
def add_binding (bindings : List LayoutBinding) (binding : Nat) (ty : DescriptorType)
    (stage_flags : Nat) (count : Option Nat) : List LayoutBinding :=
  bindings ++ [{ binding := binding, descriptor_type := ty,
                 descriptor_count := count.getD 1, stage_flags := stage_flags }]

/-- A `DescriptorBufferInfo` as produced by `VRTBuffer::get_buffer_info`. -/
structure BufferInfo where
  buffer : Nat
  offset : Nat
  range : Nat
deriving DecidableEq

/-- One `WriteDescriptorSetBuilder` accumulated by the writer. -/
structure WriteDescriptorSet where
  descriptor_type : DescriptorType
  dst_binding : Nat
  buffer_info : BufferInfo
  dst_set : Option Nat
deriving DecidableEq

/-- The driver-side state of a Vulkan descriptor pool created by
`VRTDescriptorPool::new`: the remaining set budget (`max_sets` down), the
remaining per-type descriptor budget (`pool_sizes` down), and a counter for
fresh set handles.  The repository stores only the opaque pool handle; this
accounting is the Vulkan-specified behaviour of that handle. -/
structure PoolState where
  max_sets : Nat
  remaining_sets : Nat
  remaining : List (DescriptorType × Nat)
  next_set_handle : Nat
deriving DecidableEq

/-- Remaining budget of one descriptor type in the pool. -/
def PoolState.remainingOf (p : PoolState) (t : DescriptorType) : Nat :=
  ((p.remaining.find? (fun x => decide (x.1 = t))).map (fun x => x.2)).getD 0

/-- Total descriptor count a layout demands of one descriptor type. -/
def typeDemand (layout : VRTDescriptorSetLayout) (t : DescriptorType) : Nat :=
  (layout.bindings.filter (fun b => decide (b.descriptor_type = t))).foldl
    (fun acc b => acc + b.descriptor_count) 0

/-- `vkAllocateDescriptorSets` on one layout, per the Vulkan contract: fails
(`none`) when the pool's set budget or any required type budget is exhausted,
else hands out a fresh set handle and debits the budgets. -/
def vkAllocateDescriptorSets (p : PoolState) (layout : VRTDescriptorSetLayout) :
    Option (PoolState × Nat) :=
  if 0 < p.remaining_sets ∧
      ∀ b ∈ layout.bindings, typeDemand layout b.descriptor_type ≤ p.remainingOf b.descriptor_type
  then
    some ({ p with
              remaining_sets := p.remaining_sets - 1
              remaining := p.remaining.map (fun x => (x.1, x.2 - typeDemand layout x.1))
              next_set_handle := p.next_set_handle + 1 },
          p.next_set_handle)
  else none

/-- A Rust panic reached by the modelled code. -/
inductive RustPanic
  | unwrapPanic
  | todoPanic
deriving DecidableEq

/-- `VRTDescriptorPool::allocate_descriptor` (`src/vrt/descriptor_pool.rs`):
calls `allocate_descriptor_sets` and `unwrap()`s it — a failed allocation
panics instead of being returned — then wraps the one-element result in
`Some`.  The `Option` return is `Some` on every non-panicking path. -/
def allocate_descriptor (p : PoolState) (layout : VRTDescriptorSetLayout) :
    Except RustPanic (PoolState × Option (List Nat)) :=
  match vkAllocateDescriptorSets p layout with
  | some (p', s) => .ok (p', some [s])
  | none => .error .unwrapPanic

/-- The writer built by `VRTDescriptorWriter::new`: the target layout and the
accumulated writes. -/
structure WriterState where
  layout : VRTDescriptorSetLayout
  writes : List WriteDescriptorSet
deriving DecidableEq

/-- `VRTDescriptorWriter::new`. -/
def VRTDescriptorWriter.new (layout : VRTDescriptorSetLayout) : WriterState :=
  { layout := layout, writes := [] }

/-- `VRTDescriptorWriter::write_buffer`: reads
`layout.bindings[binding as usize]` (a panic, `none`, when out of range) and
pushes a write carrying that entry's descriptor type; no validation beyond
the index happens. -/
def write_buffer (w : WriterState) (binding : Nat) (info : BufferInfo) :
    Option WriterState :=
  match w.layout.bindings[binding]? with
  | some bd =>
      some { w with writes := w.writes ++
        [{ descriptor_type := bd.descriptor_type, dst_binding := binding,
           buffer_info := info, dst_set := none }] }
  | none => none

/-- `VRTDescriptorWriter::build`: allocates one set from the pool (a panic
inside `allocate_descriptor` propagates; the `None` arm is `todo!()`), zips
the accumulated writes with the one-element set list — so only the first
write receives a `dst_set` and is submitted to `update_descriptor_sets` — and
returns the set.  No completeness check against the layout is performed.  The
returned triple is (pool after allocation, allocated set handles, the writes
actually submitted). -/
def build (w : WriterState) (p : PoolState) :
    Except RustPanic (PoolState × List Nat × List WriteDescriptorSet) :=
  match allocate_descriptor p w.layout with
  | .error e => .error e
  | .ok (_, none) => .error .todoPanic
  | .ok (p', some sets) =>
      .ok (p', sets,
        (w.writes.zip sets).map (fun pr => { pr.1 with dst_set := some pr.2 }))

/-- Debiting every entry of a budget list lowers each type's lookup by that
type's demand. -/
lemma lookup_map_debit (l : List (DescriptorType × Nat)) (f : DescriptorType → Nat)
    (t : DescriptorType) :
    ((((l.map (fun x => (x.1, x.2 - f x.1))).find? (fun x => decide (x.1 = t))).map
        (fun x => x.2)).getD 0) =
      (((l.find? (fun x => decide (x.1 = t))).map (fun x => x.2)).getD 0) - f t := by
  induction l with
  | nil => simp
  | cons a rest ih =>
    by_cases h : a.1 = t
    · subst h
      simp [List.find?_cons]
    · simp only [List.map_cons, List.find?_cons]
      have h1 : (decide (a.1 = t)) = false := by simp [h]
      simp only [h1]
      exact ih

/-- Claim C6 (amended): when the pool's declared budget is consumed (the
set budget or any per-type budget), the Vulkan allocation fails and
`allocate_descriptor` panics via `unwrap()` — there is no typed error value;
every non-panicking call returns `Some` of one fresh set and never grows the
pool: `max_sets` is unchanged and the remaining set/type budgets only
decrease. -/
theorem allocate_descriptor_panic_on_exhaustion :
    (∀ (p : PoolState) (layout : VRTDescriptorSetLayout),
      vkAllocateDescriptorSets p layout = none →
      allocate_descriptor p layout = .error .unwrapPanic) ∧
    (∀ (p : PoolState) (layout : VRTDescriptorSetLayout),
      p.remaining_sets = 0 → allocate_descriptor p layout = .error .unwrapPanic) ∧
    (∀ (p p' : PoolState) (layout : VRTDescriptorSetLayout) (os : Option (List Nat)),
      allocate_descriptor p layout = .ok (p', os) →
      (∃ s, os = some [s]) ∧ p'.max_sets = p.max_sets ∧
      p'.remaining_sets ≤ p.remaining_sets ∧
      ∀ t, p'.remainingOf t ≤ p.remainingOf t) := by
  refine ⟨?_, ?_, ?_⟩
  · intro p layout h
    unfold allocate_descriptor
    rw [h]
  · intro p layout h
    unfold allocate_descriptor vkAllocateDescriptorSets
    rw [if_neg (by simp [h])]
  · intro p p' layout os h
    unfold allocate_descriptor at h
    cases halloc : vkAllocateDescriptorSets p layout with
    | none =>
      rw [halloc] at h
      exact Except.noConfusion h
    | some pr =>
      obtain ⟨q, sH⟩ := pr
      rw [halloc] at h
      cases h
      unfold vkAllocateDescriptorSets at halloc
      split at halloc
      · cases halloc
        refine ⟨⟨_, rfl⟩, rfl, Nat.sub_le _ _, ?_⟩
        intro t
        unfold PoolState.remainingOf
        rw [lookup_map_debit]
        exact Nat.sub_le _ _
      · exact Option.noConfusion halloc

/-- An exhausted pool: `max_sets = 2` already consumed. -/
def exPoolExhausted : PoolState :=
  { max_sets := 2, remaining_sets := 0, remaining := [(.uniformBuffer, 4)],
    next_set_handle := 0 }

/-- A layout declaring one uniform buffer at binding 0 (stage flags 17 are
`VERTEX | FRAGMENT`). -/
def exLayout1 : VRTDescriptorSetLayout :=
  { bindings := add_binding [] 0 .uniformBuffer 17 none }

/-- Counterexample to claim C6 as stated: allocating from a pool whose set
budget is consumed does not return a typed `Exhausted` error — the failed
Vulkan allocation is `unwrap()`ed, i.e. the call panics (the function's
`Option` result has no error value and is `Some` on every returning path). -/
theorem allocate_descriptor_exhausted_cex :
    allocate_descriptor exPoolExhausted exLayout1 = .error .unwrapPanic := by
  rfl

/-- Witness for C6's theorem: the exhausted-pool panic instantiated on the
concrete pool, and the not-grown facts instantiated on a concrete successful
allocation. -/
theorem allocate_descriptor_panic_on_exhaustion_witness :
    exPoolExhausted.remaining_sets = 0 ∧
    allocate_descriptor exPoolExhausted exLayout1 = .error .unwrapPanic :=
  ⟨rfl, allocate_descriptor_panic_on_exhaustion.2.1 exPoolExhausted exLayout1 rfl⟩

/-- Claim C5 (amended): `build()` performs no completeness check against the
layout — whenever the pool allocation succeeds it returns a descriptor set,
even when the writer supplied fewer bindings than the layout declares; and
because the accumulated writes are zipped with the single allocated set, the
writes actually submitted are exactly the first `min(|writes|, 1)` of them,
not the layout's declared binding list. -/
theorem descriptor_build_first_write_only (w : WriterState) (p p' : PoolState) (h : Nat)
    (halloc : vkAllocateDescriptorSets p w.layout = some (p', h)) :
    build w p =
      .ok (p', [h], (w.writes.take 1).map (fun x => { x with dst_set := some h })) := by
  rcases w with ⟨L, ws⟩
  unfold build allocate_descriptor
  rw [halloc]
  cases ws with
  | nil => rfl
  | cons a l => simp [List.zip_cons_cons, List.zip_nil_right]

/-- A layout declaring uniform buffers at bindings 0 and 1 — the spec's
completeness example. -/
def exLayout2 : VRTDescriptorSetLayout :=
  { bindings := add_binding (add_binding [] 0 .uniformBuffer 17 none) 1 .uniformBuffer 17 none }

/-- A buffer info for the example writes. -/
def exInfo : BufferInfo := { buffer := 11, offset := 0, range := 64 }

/-- The writer after supplying only binding 0 against `exLayout2`. -/
def exWriter1 : WriterState :=
  { layout := exLayout2,
    writes := [{ descriptor_type := .uniformBuffer, dst_binding := 0,
                 buffer_info := exInfo, dst_set := none }] }

/-- A pool with plenty of budget. -/
def exPool4 : PoolState :=
  { max_sets := 4, remaining_sets := 4, remaining := [(.uniformBuffer, 8)],
    next_set_handle := 0 }

/-- Counterexample to claim C5 as stated: with the layout declaring bindings
`[0, 1]` and the writer supplying only binding 0, `build()` does not fail —
it allocates and returns a set, and the writes submitted to the set cover
only binding 0, not the layout's declared `[0, 1]`. -/
theorem descriptor_build_incomplete_cex :
    exLayout2.bindings.map (fun b => b.binding) = [0, 1] ∧
    write_buffer (VRTDescriptorWriter.new exLayout2) 0 exInfo = some exWriter1 ∧
    build exWriter1 exPool4 =
      .ok ({ max_sets := 4, remaining_sets := 3, remaining := [(.uniformBuffer, 6)],
             next_set_handle := 1 }, [0],
           [{ descriptor_type := .uniformBuffer, dst_binding := 0,
              buffer_info := exInfo, dst_set := some 0 }]) ∧
    [({ descriptor_type := .uniformBuffer, dst_binding := 0, buffer_info := exInfo,
        dst_set := some 0 } : WriteDescriptorSet)].map (fun x => x.dst_binding) ≠
      exLayout2.bindings.map (fun b => b.binding) := by
  refine ⟨rfl, rfl, rfl, by decide⟩

/-- Witness for C5's theorem on the concrete incomplete writer: the pool
allocation succeeds, so `build` returns the set with only the first write
submitted. -/
theorem descriptor_build_first_write_only_witness :
    build exWriter1 exPool4 =
      .ok ({ max_sets := 4, remaining_sets := 3, remaining := [(.uniformBuffer, 6)],
             next_set_handle := 1 }, [0],
           (exWriter1.writes.take 1).map (fun x => { x with dst_set := some 0 })) :=
  descriptor_build_first_write_only exWriter1 exPool4
    { max_sets := 4, remaining_sets := 3, remaining := [(.uniformBuffer, 6)],
      next_set_handle := 1 } 0 (by rfl)

/-! Swapchain construction and per-frame synchronization
(`src/vrt/device/swapchain.rs`, `src/vrt/device/sync.rs`). -/

/-- The surface formats the engine distinguishes (a fragment of Vulkan's
`Format`). -/
inductive Format
  | B8G8R8A8_SRGB
  | otherFormat (code : Nat)
deriving DecidableEq

/-- Colour spaces (a fragment of Vulkan's `ColorSpaceKHR`). -/
inductive ColorSpace
  | SRGB_NONLINEAR_KHR
  | otherColorSpace (code : Nat)
deriving DecidableEq

/-- A `SurfaceFormatKHR` entry. -/
structure SurfaceFormat where
  format : Format
  color_space : ColorSpace
deriving DecidableEq

/-- Present modes (a fragment of Vulkan's `PresentModeKHR`). -/
inductive PresentMode
  | MAILBOX_KHR
  | FIFO_KHR
  | otherPresentMode (code : Nat)
deriving DecidableEq

/-- Vulkan's `SharingMode`. -/
inductive SharingMode
  | EXCLUSIVE
  | CONCURRENT
deriving DecidableEq

/-- The `SurfaceCapabilitiesKHR` fields that `create_swapchain` reads
(`u32` counts and extents). -/
structure SurfaceCapabilities where
  min_image_count : Nat
  max_image_count : Nat
  current_extent : Extent2D
  min_image_extent : Extent2D
  max_image_extent : Extent2D
deriving DecidableEq

/-- `SwapchainSupportDetails`: the surface-capabilities report. -/
structure SwapchainSupportDetails where
  capabilities : SurfaceCapabilities
  formats : List SurfaceFormat
  present_modes : List PresentMode
deriving DecidableEq

/-- `Swapchain::choose_swap_surface_format`: prefers 8-bit sRGB, else the
first available format; `none` models the panic of `available_formats[0]` on
an empty report. -/
def choose_swap_surface_format (available : List SurfaceFormat) : Option SurfaceFormat :=
  match available with
  | [] => none
  | f0 :: _ =>
      some ((available.find? (fun f =>
        decide (f.format = .B8G8R8A8_SRGB) && decide (f.color_space = .SRGB_NONLINEAR_KHR))).getD f0)

/-- `Swapchain::choose_swap_present_mode`: prefers mailbox, else FIFO. -/
def choose_swap_present_mode (available : List PresentMode) : PresentMode :=
  (available.find? (fun pm => decide (pm = .MAILBOX_KHR))).getD .FIFO_KHR

/-- `Swapchain::choose_swap_extent`: when the platform leaves the extent
free (`current_extent.width == u32::MAX`) clamps the requested extent to the
reported bounds, else uses the platform's extent. -/
def choose_swap_extent (extent : Extent2D) (caps : SurfaceCapabilities) : Extent2D :=
  if caps.current_extent.width = U32MOD - 1 then
    { width := max caps.min_image_extent.width (min extent.width caps.max_image_extent.width)
      height := max caps.min_image_extent.height (min extent.height caps.max_image_extent.height) }
  else caps.current_extent

/-- The `SwapchainCreateInfoKHR` fields the engine computes. -/
structure SwapchainCreateInfo where
  min_image_count : Nat
  image_format : Format
  image_color_space : ColorSpace
  image_extent : Extent2D
  image_sharing_mode : SharingMode
  queue_family_indices : List Nat
  present_mode : PresentMode
deriving DecidableEq

/-- `Swapchain::create_swapchain` (`src/vrt/device/swapchain.rs`): chooses
format, present mode and extent, computes the requested image count as
`max_image_count.min(min_image_count + 1)` when a maximum is declared
(`max_image_count > 0`, `u32` addition) and `min_image_count + 1` otherwise,
and picks the sharing mode from the queue-family indices. -/
def create_swapchain (extent : Extent2D) (support : SwapchainSupportDetails)
    (graphics_family present_family : Nat) : Option SwapchainCreateInfo :=
  match choose_swap_surface_format support.formats with
  | none => none
  | some surface_format =>
      some { min_image_count :=
               if 0 < support.capabilities.max_image_count then
                 min support.capabilities.max_image_count
                   (u32add support.capabilities.min_image_count 1)
               else u32add support.capabilities.min_image_count 1
             image_format := surface_format.format
             image_color_space := surface_format.color_space
             image_extent := choose_swap_extent extent support.capabilities
             image_sharing_mode :=
               if graphics_family = present_family then .EXCLUSIVE else .CONCURRENT
             queue_family_indices :=
               if graphics_family = present_family then []
               else [graphics_family, present_family]
             present_mode := choose_swap_present_mode support.present_modes }

/-- Claim C8 (amended): for every surface-capabilities report whose
`min_image_count + 1` does not overflow `u32`, the image count requested at
construction equals `min(max_image_count, min_image_count + 1)` when the
platform declares a maximum (`max_image_count > 0`), and
`min_image_count + 1` otherwise. -/
theorem image_count_no_overflow (extent : Extent2D) (support : SwapchainSupportDetails)
    (gf pf : Nat) (info : SwapchainCreateInfo)
    (hov : support.capabilities.min_image_count + 1 < U32MOD)
    (h : create_swapchain extent support gf pf = some info) :
    info.min_image_count =
      if 0 < support.capabilities.max_image_count then
        min support.capabilities.max_image_count (support.capabilities.min_image_count + 1)
      else support.capabilities.min_image_count + 1 := by
  have hadd : u32add support.capabilities.min_image_count 1 =
      support.capabilities.min_image_count + 1 := by
    unfold u32add
    exact Nat.mod_eq_of_lt hov
  unfold create_swapchain at h
  cases hcf : choose_swap_surface_format support.formats with
  | none =>
    rw [hcf] at h
    exact Option.noConfusion h
  | some sf =>
    rw [hcf] at h
    cases h
    show (if 0 < support.capabilities.max_image_count then
        min support.capabilities.max_image_count
          (u32add support.capabilities.min_image_count 1)
      else u32add support.capabilities.min_image_count 1) = _
    rw [hadd]

/-- A well-formed support report: `min_image_count = 2`,
`max_image_count = 3`. -/
def exSupportNormal : SwapchainSupportDetails :=
  { capabilities :=
      { min_image_count := 2, max_image_count := 3, current_extent := ⟨800, 600⟩,
        min_image_extent := ⟨1, 1⟩, max_image_extent := ⟨4096, 4096⟩ }
    formats := [{ format := .B8G8R8A8_SRGB, color_space := .SRGB_NONLINEAR_KHR }]
    present_modes := [.FIFO_KHR] }

/-- Witness for C8's theorem: with `min = 2` and a declared `max = 3` the
requested image count is `min(3, 2 + 1) = 3`. -/
theorem image_count_no_overflow_witness :
    ((create_swapchain ⟨800, 600⟩ exSupportNormal 0 0).map
      (fun info => info.min_image_count)) = some 3 ∧
    (∀ info, create_swapchain ⟨800, 600⟩ exSupportNormal 0 0 = some info →
      info.min_image_count =
        if 0 < exSupportNormal.capabilities.max_image_count then
          min exSupportNormal.capabilities.max_image_count
            (exSupportNormal.capabilities.min_image_count + 1)
        else exSupportNormal.capabilities.min_image_count + 1) :=
  ⟨by decide,
   fun info h => image_count_no_overflow ⟨800, 600⟩ exSupportNormal 0 0 info (by decide) h⟩

/-- A support report at the `u32` boundary: `min_image_count = u32::MAX`,
declared `max_image_count = 5`. -/
def exSupportOverflow : SwapchainSupportDetails :=
  { capabilities :=
      { min_image_count := U32MOD - 1, max_image_count := 5, current_extent := ⟨800, 600⟩,
        min_image_extent := ⟨1, 1⟩, max_image_extent := ⟨4096, 4096⟩ }
    formats := [{ format := .B8G8R8A8_SRGB, color_space := .SRGB_NONLINEAR_KHR }]
    present_modes := [.FIFO_KHR] }

/-- Counterexample to claim C8 as stated: with `min_image_count = u32::MAX`
and `max_image_count = 5`, the `u32` addition `min_image_count + 1` wraps to
0 and the code requests `min(5, 0) = 0` images, not the claimed
`min(max_image_count, min_image_count + 1) = 5`. -/
theorem image_count_overflow_cex :
    ((create_swapchain ⟨800, 600⟩ exSupportOverflow 0 0).map
      (fun info => info.min_image_count)) = some 0 ∧
    min exSupportOverflow.capabilities.max_image_count
      (exSupportOverflow.capabilities.min_image_count + 1) = 5 := by
  refine ⟨by decide, by decide⟩

/-- `SyncObjects<MAX_FRAMES_IN_FLIGHT>` (`src/vrt/device/sync.rs`): handles
are opaque `Nat` values. -/
structure SyncObjects where
  current_frame : Nat
  images_in_flight : List (Option Nat)
  in_flight_fences : List Nat
  render_finished_semaphores : List Nat
  image_available_semaphores : List Nat
deriving DecidableEq

/-- The `create_objects` helper inside `create_sync_objects`: fills an array
of `MAX_FRAMES_IN_FLIGHT` objects with successive fresh handles, returning
them with the next free handle. -/
def create_objects (next : Nat) : List Nat × Nat :=
  ((List.range MAX_FRAMES_IN_FLIGHT).map (fun i => next + i), next + MAX_FRAMES_IN_FLIGHT)

/-- `Swapchain::create_sync_objects`: two image-available semaphores, then
two render-finished semaphores, then two fences (created signaled), one
`images_in_flight` slot per swapchain image, and `current_frame: 0`. -/
def create_sync_objects (num_images : Nat) (next : Nat) : SyncObjects :=
  { current_frame := 0
    images_in_flight := List.replicate num_images none
    image_available_semaphores := (create_objects next).1
    render_finished_semaphores := (create_objects (create_objects next).2).1
    in_flight_fences := (create_objects (create_objects (create_objects next).2).2).1 }

/-- The `Swapchain` fields relevant to synchronization; the images and their
count come from the driver (environment). -/
structure SwapchainState where
  extent : Extent2D
  image_format : Format
  num_images : Nat
  sync : SyncObjects
deriving DecidableEq

/-- `Swapchain::new`: builds the swapchain and its sync objects (image
handles, views, render pass and framebuffers are opaque here; `num_images`
and the fresh-handle counter come from the environment). -/
def Swapchain.new (extent : Extent2D) (image_format : Format) (num_images : Nat)
    (next_handle : Nat) : SwapchainState :=
  { extent := extent, image_format := image_format, num_images := num_images,
    sync := create_sync_objects num_images next_handle }

/-- The synchronization primitives one `acquire_next_image` call uses: the
fence it waits on and the image-available semaphore it hands to
`acquire_next_image_khr`. -/
structure AcquireUse where
  fence_waited : Nat
  semaphore_used : Nat
deriving DecidableEq

/-- `Swapchain::acquire_next_image(&self, index)`: waits on
`in_flight_fences[current_frame]` and acquires with
`image_available_semaphores[current_frame]`; the `index` parameter is not
read, and `&self` leaves the swapchain unchanged. -/
def acquire_next_image (sc : SwapchainState) (index : Nat) : AcquireUse × SwapchainState :=
  ({ fence_waited := sc.sync.in_flight_fences.getD sc.sync.current_frame 0
     semaphore_used := sc.sync.image_available_semaphores.getD sc.sync.current_frame 0 }, sc)

/-- The synchronization primitives one `submit_command_buffer` call uses. -/
structure SubmitUse where
  wait_semaphore : Nat
  signal_semaphore : Nat
  fence_reset : Nat
  fence_submitted : Nat
  command_buffer_slot : Nat
deriving DecidableEq

/-- `Swapchain::submit_command_buffer(&self, device, command_buffers,
image_index)`: waits on `image_available_semaphores[current_frame]`, signals
`render_finished_semaphores[current_frame]`, resets and submits with
`in_flight_fences[current_frame]`, and submits
`command_buffers[image_index]`; `&self` leaves the swapchain unchanged. -/
def submit_command_buffer (sc : SwapchainState) (image_index : Nat) :
    SubmitUse × SwapchainState :=
  ({ wait_semaphore := sc.sync.image_available_semaphores.getD sc.sync.current_frame 0
     signal_semaphore := sc.sync.render_finished_semaphores.getD sc.sync.current_frame 0
     fence_reset := sc.sync.in_flight_fences.getD sc.sync.current_frame 0
     fence_submitted := sc.sync.in_flight_fences.getD sc.sync.current_frame 0
     command_buffer_slot := image_index }, sc)

/-- Claim C9: the slot-index parameter of `acquire_next_image` is ignored
(the primitives used are identical for any two indices and are those of
`sync.current_frame`); `current_frame` is 0 on every swapchain built by
`Swapchain::new`; neither `acquire_next_image` nor `submit_command_buffer`
(both `&self`) modifies the swapchain; hence on any constructed swapchain
both operations always use the sync triple of slot 0. -/
theorem acquire_ignores_slot_index :
    (∀ (sc : SwapchainState) (i j : Nat),
      (acquire_next_image sc i).1 = (acquire_next_image sc j).1) ∧
    (∀ (sc : SwapchainState) (i : Nat),
      (acquire_next_image sc i).1.fence_waited =
        sc.sync.in_flight_fences.getD sc.sync.current_frame 0 ∧
      (acquire_next_image sc i).1.semaphore_used =
        sc.sync.image_available_semaphores.getD sc.sync.current_frame 0) ∧
    (∀ (e : Extent2D) (fmt : Format) (n h : Nat),
      (Swapchain.new e fmt n h).sync.current_frame = 0) ∧
    (∀ (sc : SwapchainState) (i : Nat), (acquire_next_image sc i).2 = sc) ∧
    (∀ (sc : SwapchainState) (ii : Nat), (submit_command_buffer sc ii).2 = sc) ∧
    (∀ (e : Extent2D) (fmt : Format) (n h i ii : Nat),
      (acquire_next_image (Swapchain.new e fmt n h) i).1.fence_waited =
        (Swapchain.new e fmt n h).sync.in_flight_fences.getD 0 0 ∧
      (acquire_next_image (Swapchain.new e fmt n h) i).1.semaphore_used =
        (Swapchain.new e fmt n h).sync.image_available_semaphores.getD 0 0 ∧
      (submit_command_buffer (Swapchain.new e fmt n h) ii).1.wait_semaphore =
        (Swapchain.new e fmt n h).sync.image_available_semaphores.getD 0 0 ∧
      (submit_command_buffer (Swapchain.new e fmt n h) ii).1.signal_semaphore =
        (Swapchain.new e fmt n h).sync.render_finished_semaphores.getD 0 0 ∧
      (submit_command_buffer (Swapchain.new e fmt n h) ii).1.fence_submitted =
        (Swapchain.new e fmt n h).sync.in_flight_fences.getD 0 0) :=
  ⟨fun _ _ _ => rfl,
   fun _ _ => ⟨rfl, rfl⟩,
   fun _ _ _ _ => rfl,
   fun _ _ => rfl,
   fun _ _ => rfl,
   fun _ _ _ _ _ _ => ⟨rfl, rfl, rfl, rfl, rfl⟩⟩

end ICE
